import Mathlib

/-!
Verification development for the WorkTools repository
(`VoicetoText.py` — Whisper transcription front end, and `app.py` — Flask route).

The Python source is shallowly embedded: real numbers of seconds become `ℚ`,
Python `int()` truncation and `%` on floats become `pyInt` and `pyMod`,
`f"{n:0wd}"` zero-padded rendering becomes `pyFormatPad`, files written
sequentially become concatenated `String`s, exceptions become `Except`,
and the external Whisper/torch calls become oracle function parameters.
GUI-class methods live in namespace `App`; the module-level command-line
functions live at top level, mirroring the source layout.
-/

/-- Python `int(x)` on a real value: truncation toward zero. -/
def pyInt (x : ℚ) : ℤ := if 0 ≤ x then ⌊x⌋ else ⌈x⌉

/-- Python `x % m` on real values (for `m > 0` the result is in `[0, m)`):
`x - m * floor (x / m)`. -/
def pyMod (x m : ℚ) : ℚ := x - m * ⌊x / m⌋

/-- A run of `k` zero characters, used for zero padding. -/
def zeroPad (k : ℕ) : String := String.mk (List.replicate k (Char.ofNat 48))

/-- Python `f"{n:0wd}"`: decimal rendering of `n` zero-padded to minimum
width `w`; for negative `n` the sign comes first and counts toward the width. -/
def pyFormatPad (w : ℕ) (n : ℤ) : String :=
  if n < 0 then
    "-" ++ zeroPad (w - (Nat.repr n.natAbs).length - 1) ++ Nat.repr n.natAbs
  else
    zeroPad (w - (Nat.repr n.toNat).length) ++ Nat.repr n.toNat

/-- The srt timestamp f-string `f"{hours:02d}:{minutes:02d}:{secs:02d},{millisecs:03d}"`
(`VoicetoText.py` line 499 / 393). -/
def srtStamp (hours minutes secs millisecs : ℤ) : String :=
  pyFormatPad 2 hours ++ ":" ++ pyFormatPad 2 minutes ++ ":" ++ pyFormatPad 2 secs
    ++ "," ++ pyFormatPad 3 millisecs

/-- The vtt timestamp f-string `f"{hours:02d}:{minutes:02d}:{secs:02d}.{millisecs:03d}"`
(`VoicetoText.py` line 501 / 395). -/
def vttStamp (hours minutes secs millisecs : ℤ) : String :=
  pyFormatPad 2 hours ++ ":" ++ pyFormatPad 2 minutes ++ ":" ++ pyFormatPad 2 secs
    ++ "." ++ pyFormatPad 3 millisecs

/-- Module-level `format_timestamp(seconds, output_format)`
(`VoicetoText.py` lines 491-501). -/
def format_timestamp (seconds : ℚ) (output_format : String) : String :=
  let hours := pyInt (seconds / 3600)
  let minutes := pyInt (pyMod seconds 3600 / 60)
  let secs := pyInt (pyMod seconds 60)
  let millisecs := pyInt ((seconds - (pyInt seconds : ℚ)) * 1000)
  if output_format = "srt" then srtStamp hours minutes secs millisecs
  else vttStamp hours minutes secs millisecs

/-- A segment of a transcription result: `segment["start"]`, `segment["end"]`,
`segment["text"]` as consumed by the serializers. -/
structure Segment where
  start : ℚ
  stop : ℚ
  text : String
deriving DecidableEq

/-- A transcription result as consumed by the serializers:
`result["text"]` and `result["segments"]`. -/
structure TranscriptionResult where
  text : String
  segments : List Segment
deriving DecidableEq

/-- One iteration of the srt/vtt writing loop in the module-level
`transcribe_audio` (`VoicetoText.py` lines 469-482): the text written
for segment number `i` (0-based loop index). -/
def segment_block (output_format : String) (i : ℕ) (segment : Segment) : String :=
  let start_time := format_timestamp segment.start output_format
  let end_time := format_timestamp segment.stop output_format
  let text := segment.text.trim
  if output_format = "srt" then
    Nat.repr (i + 1) ++ "\n" ++ start_time ++ " --> " ++ end_time ++ "\n" ++ text ++ "\n\n"
  else
    (if i = 0 then "WEBVTT\n\n" else "") ++ start_time ++ " --> " ++ end_time ++ "\n"
      ++ text ++ "\n\n"

/-- The enumerated srt/vtt writing loop (`for i, segment in enumerate(segments)`),
accumulating the sequence of `f.write` calls as one string, starting at
loop index `i`. -/
def write_segments_aux (output_format : String) : ℕ → List Segment → String
  | _, [] => ""
  | i, segment :: rest =>
    segment_block output_format i segment ++ write_segments_aux output_format (i + 1) rest

/-- Contents of the srt/vtt output file produced by the module-level
`transcribe_audio` (`VoicetoText.py` lines 466-482). -/
def write_segments (segments : List Segment) (output_format : String) : String :=
  write_segments_aux output_format 0 segments

/-- Contents of the output file written by the module-level `transcribe_audio`
(`VoicetoText.py` lines 462-486), as a function of the transcription result.
`json.dump` is an external library call, passed in as `jsonDump`; a format
outside the four known ones writes nothing (`none`). -/
def write_output (jsonDump : TranscriptionResult → String) (result : TranscriptionResult)
    (output_format : String) : Option String :=
  if output_format = "txt" then some result.text
  else if output_format = "srt" ∨ output_format = "vtt" then
    some (write_segments result.segments output_format)
  else if output_format = "json" then some (jsonDump result)
  else none

/-- `audio_extensions` (`VoicetoText.py` lines 312 and 505). -/
def audio_extensions : List String := [".mp3", ".wav", ".m4a", ".flac", ".ogg"]

/-- The batch eligibility filter
`any(file.lower().endswith(ext) for ext in audio_extensions)`. -/
def isAudioFile (file : String) : Bool :=
  audio_extensions.any (fun ext => file.toLower.endsWith ext)

/-- `os.path.join(directory, file)` for the POSIX case used by the batch loops. -/
def path_join (directory file : String) : String := directory ++ "/" ++ file

/-- `main`'s device resolution (`VoicetoText.py` lines 420-423):
`args.device` if given, else auto-detection from GPU availability. -/
def main_device (args_device : Option String) (gpu_available : Bool) : String :=
  match args_device with
  | none => if gpu_available then "cuda" else "cpu"
  | some d => d

/-- Per-file outcome of the command line batch loop
(`VoicetoText.py` lines 519-528): produced output paths in order, plus the
`"Error processing {file}: ..."` entries printed for failing files, keyed by
the file path. `step` is one `transcribe_audio` call: `ok` with the output
path, or `error` with the exception message. -/
def batchAux (step : String → Except String String) : List String → List String × List (String × String)
  | [] => ([], [])
  | file :: rest =>
    match step file with
    | Except.ok out => let r := batchAux step rest; (out :: r.1, r.2)
    | Except.error e => let r := batchAux step rest; (r.1, (file, e) :: r.2)

/-- Module-level `batch_transcribe` (`VoicetoText.py` lines 503-528):
filters the directory listing by the audio-extension allow-list, joins paths,
then runs every file, isolating per-file failures. The first component of the
result is the returned `output_files` list; the second collects the printed
per-file error messages. -/
def batch_transcribe (directory : String) (dirListing : List String)
    (step : String → Except String String) : List String × List (String × String) :=
  let audio_files := (dirListing.filter isAudioFile).map (path_join directory)
  batchAux step audio_files

/-- Terminal job states of a transcription run. -/
inductive Terminal
  | Completed
  | Cancelled
  | Failed
deriving DecidableEq

/-- Caller-visible outcome of `process_transcription`: the terminal state and
the final progress value. -/
structure JobFinal where
  state : Terminal
  progress : ℚ
deriving DecidableEq

/-- `process_transcription` (`VoicetoText.py` lines 227-261), abstracted over
the pipeline outcome. `pipelineRaises` is whether `batch_transcribe` /
`transcribe_audio` raised; `cancelRequested` is whether `cancel_transcription`
ran (so `self.processing` is `False` at the line-252 check); `simProgress` is
the last value written by the `simulate_progress` thread. On normal pipeline
return the code executes `self.progress_var.set(100)` unconditionally (line
250) and then reports success only when not cancelled; on an exception the
progress is left at the estimator's value and the run ends in the error state. -/
def process_transcription (pipelineRaises cancelRequested : Bool) (simProgress : ℚ) : JobFinal :=
  if pipelineRaises then { state := Terminal.Failed, progress := simProgress }
  else
    { state := if cancelRequested then Terminal.Cancelled else Terminal.Completed
      progress := 100 }

/-- The increment schedule of `simulate_progress`
(`VoicetoText.py` lines 213-221). -/
def increment (step : ℚ) : ℚ :=
  if step < 20 then 0.5
  else if step < 50 then 0.3
  else if step < 80 then 0.1
  else 0.05

/-- Value of `step` in `simulate_progress` (`VoicetoText.py` lines 207-225)
after `n` ticks of the `while self.processing and step < 95` loop (for a run
that is still processing). -/
def simSteps : ℕ → ℚ
  | 0 => 0
  | n + 1 =>
    let s := simSteps n
    if s < 95 then s + increment s else s

namespace App

/-- `WhisperTranscriptionApp.get_device` (`VoicetoText.py` lines 199-205). -/
def get_device (device_choice : String) (cuda_is_available : Bool) : String :=
  if device_choice = "auto" then (if cuda_is_available then "cuda" else "cpu")
  else device_choice

/-- `WhisperTranscriptionApp.format_timestamp` (`VoicetoText.py` lines 385-395). -/
def format_timestamp (seconds : ℚ) (output_format : String) : String :=
  let hours := pyInt (seconds / 3600)
  let minutes := pyInt (pyMod seconds 3600 / 60)
  let secs := pyInt (pyMod seconds 60)
  let millisecs := pyInt ((seconds - (pyInt seconds : ℚ)) * 1000)
  if output_format = "srt" then srtStamp hours minutes secs millisecs
  else vttStamp hours minutes secs millisecs

/-- One iteration of the srt/vtt loop inside
`WhisperTranscriptionApp.transcribe_audio` (`VoicetoText.py` lines 288-301). -/
def segment_block (output_format : String) (i : ℕ) (segment : Segment) : String :=
  let start_time := App.format_timestamp segment.start output_format
  let end_time := App.format_timestamp segment.stop output_format
  let text := segment.text.trim
  if output_format = "srt" then
    Nat.repr (i + 1) ++ "\n" ++ start_time ++ " --> " ++ end_time ++ "\n" ++ text ++ "\n\n"
  else
    (if i = 0 then "WEBVTT\n\n" else "") ++ start_time ++ " --> " ++ end_time ++ "\n"
      ++ text ++ "\n\n"

/-- The enumerated srt/vtt loop of the GUI serializer, from loop index `i`. -/
def write_segments_aux (output_format : String) : ℕ → List Segment → String
  | _, [] => ""
  | i, segment :: rest =>
    App.segment_block output_format i segment ++ App.write_segments_aux output_format (i + 1) rest

/-- Contents of the srt/vtt output file produced by
`WhisperTranscriptionApp.transcribe_audio` (`VoicetoText.py` lines 285-301). -/
def write_segments (segments : List Segment) (output_format : String) : String :=
  App.write_segments_aux output_format 0 segments

/-- Contents of the output file written by
`WhisperTranscriptionApp.transcribe_audio` (`VoicetoText.py` lines 281-305). -/
def write_output (jsonDump : TranscriptionResult → String) (result : TranscriptionResult)
    (output_format : String) : Option String :=
  if output_format = "txt" then some result.text
  else if output_format = "srt" ∨ output_format = "vtt" then
    some (App.write_segments result.segments output_format)
  else if output_format = "json" then some (jsonDump result)
  else none

/-- Observable outcome of one GUI batch loop: the returned `output_files`
list, the `"Error processing {file}: ..."` log entries keyed by file path,
and the list of files actually submitted to inference. -/
structure BatchOutcome where
  outputs : List String
  errors : List (String × String)
  started : List String
deriving DecidableEq

/-- The per-file loop of `WhisperTranscriptionApp.batch_transcribe`
(`VoicetoText.py` lines 330-383). `processingAt i` is the value of
`self.processing` observed by the line-333 check before file index `i`; if it
is `False` the loop breaks before starting that file. A failing file only
appends a log entry and the loop continues. -/
def batchLoop (step : String → Except String String) (processingAt : ℕ → Bool) :
    ℕ → List String → BatchOutcome
  | _, [] => ⟨[], [], []⟩
  | i, file :: rest =>
    if processingAt i then
      match step file with
      | Except.ok out =>
        let r := batchLoop step processingAt (i + 1) rest
        ⟨out :: r.outputs, r.errors, file :: r.started⟩
      | Except.error e =>
        let r := batchLoop step processingAt (i + 1) rest
        ⟨r.outputs, (file, e) :: r.errors, file :: r.started⟩
    else ⟨[], [], []⟩

/-- `WhisperTranscriptionApp.batch_transcribe` (`VoicetoText.py` lines
310-383): enumerate the directory, filter by the audio-extension allow-list,
join paths, then run the cancellation-aware per-file loop. -/
def batch_transcribe (directory : String) (dirListing : List String)
    (step : String → Except String String) (processingAt : ℕ → Bool) : BatchOutcome :=
  let audio_files := (dirListing.filter isAudioFile).map (path_join directory)
  App.batchLoop step processingAt 0 audio_files

end App

/-- `self.processing` as observed by the check before file index `i`, when
cancellation is requested just before the check numbered `cancelPoint`
(`none` = never cancelled). -/
def procAt (cancelPoint : Option ℕ) (i : ℕ) : Bool :=
  match cancelPoint with
  | none => true
  | some n => decide (i < n)

/-- Caller-visible outcome of one full GUI directory job: terminal state,
final progress, and the batch results. -/
structure JobRun where
  state : Terminal
  progress : ℚ
  outputs : List String
  errors : List (String × String)
  started : List String
deriving DecidableEq

/-- The directory branch of `process_transcription` (`VoicetoText.py` lines
244-261) composed with `WhisperTranscriptionApp.batch_transcribe`.
`load_model` is the `whisper.load_model` call made before the loop (line 328);
if it raises, the exception propagates and the job fails with the estimator's
progress. Otherwise the batch body catches all per-file exceptions, so the
pipeline returns normally and `process_transcription` finishes the job. -/
def run_directory_job (directory : String) (dirListing : List String)
    (load_model : Except String Unit) (step : String → Except String String)
    (cancelPoint : Option ℕ) (simProgress : ℚ) : JobRun :=
  match load_model with
  | Except.error _ =>
    { state := Terminal.Failed, progress := simProgress, outputs := [], errors := [], started := [] }
  | Except.ok _ =>
    let b := App.batch_transcribe directory dirListing step (procAt cancelPoint)
    let fin := process_transcription false cancelPoint.isSome simProgress
    { state := fin.state, progress := fin.progress
      outputs := b.outputs, errors := b.errors, started := b.started }

/-- The names bound by the module-level imports of `app.py` (lines 1-3):
`from flask import ...` binds the flask names, then `import whisper` and
`import os`. `torch` is never imported. -/
def app_imports : List String := ["Flask", "request", "jsonify", "render_template", "whisper", "os"]

/-- Lines 18-30 of the `/transcribe` handler — the code after the line-16
device resolution: save the uploaded payload to `temp/<filename>`, run
`whisper.load_model` and `model.transcribe` (combined in
`load_and_transcribe`, which raises with `error`), then `os.remove` the file
and return the text. `os.remove` sits on the success path only: an inference
exception propagates before it. In the real module this whole tail is
unreachable (line 16 raises first); it is embedded under its own name so its
cleanup structure is still visible. The `Bool` component records whether the
scratch file exists when control leaves the handler. -/
def transcribe_tail (filename : String) (load_and_transcribe : String → Except String String) :
    Except String String × Bool :=
  let file_path := "temp/" ++ filename
  match load_and_transcribe file_path with
  | Except.error e => (Except.error e, true)
  | Except.ok text => (Except.ok text, false)

/-- The `/transcribe` route handler of `app.py` (lines 11-30). After reading
the upload and the form fields, line 16 evaluates
`device = 'cuda' if torch.cuda.is_available() else 'cpu'` — but `app.py`
never imports `torch` (the name lookup against the module's imports fails),
so every request raises `NameError` at line 16, before `audio_file.save`
on line 20 ever runs: no scratch file is created and the
save/inference/cleanup tail never executes. -/
def transcribe (filename : String) (load_and_transcribe : String → Except String String) :
    Except String String × Bool :=
  if "torch" ∈ app_imports then transcribe_tail filename load_and_transcribe
  else (Except.error "NameError: name 'torch' is not defined", false)

/-- Statement-side rendering of the srt contract (claim wording): for each
segment in order, the 1-based sequential counter `n`, the timestamp line, the
trimmed text and a blank line; the counter increments by exactly one per
segment, independent of the segment's times. -/
def srt_render_spec : List Segment → ℕ → String
  | [], _ => ""
  | segment :: rest, n =>
    (Nat.repr n ++ "\n"
        ++ format_timestamp segment.start "srt" ++ " --> "
        ++ format_timestamp segment.stop "srt" ++ "\n"
        ++ segment.text.trim ++ "\n\n")
      ++ srt_render_spec rest (n + 1)

/-- Statement-side rendering of the vtt segment blocks (claim wording),
with no header anywhere: one timestamp line, trimmed text, blank line per
segment, in order. -/
def vtt_body_spec : List Segment → String
  | [] => ""
  | segment :: rest =>
    (format_timestamp segment.start "vtt" ++ " --> "
        ++ format_timestamp segment.stop "vtt" ++ "\n"
        ++ segment.text.trim ++ "\n\n")
      ++ vtt_body_spec rest

/-! ## Helper lemmas -/

theorem pyInt_of_nonneg (x : ℚ) (h : 0 ≤ x) : pyInt x = ⌊x⌋ := if_pos h

theorem pyInt_of_neg (x : ℚ) (h : x < 0) : pyInt x = ⌈x⌉ := if_neg (not_le.mpr h)

theorem pyMod_eq_fract (x m : ℚ) (hm : m ≠ 0) : pyMod x m = m * Int.fract (x / m) := by
  have hx : m * (x / m) = x := by field_simp
  unfold pyMod Int.fract
  rw [mul_sub, hx]

theorem pyMod_nonneg (x m : ℚ) (hm : 0 < m) : 0 ≤ pyMod x m := by
  rw [pyMod_eq_fract x m hm.ne']
  exact mul_nonneg hm.le (Int.fract_nonneg _)

theorem pyMod_lt (x m : ℚ) (hm : 0 < m) : pyMod x m < m := by
  rw [pyMod_eq_fract x m hm.ne']
  calc m * Int.fract (x / m) < m * 1 :=
        mul_lt_mul_of_pos_left (Int.fract_lt_one _) hm
    _ = m := mul_one m

theorem pyFormatPad_length_three (n : ℤ) (h0 : 0 ≤ n) (h1 : n ≤ 999) :
    (pyFormatPad 3 n).length = 3 := by
  have hlt : n.toNat < 10 ^ 3 := by
    have h999 : n.toNat ≤ 999 := by omega
    have : (10 : ℕ) ^ 3 = 1000 := by norm_num
    omega
  have hrepr := Nat.repr_length n.toNat 3 (by norm_num) hlt
  unfold pyFormatPad
  rw [if_neg (by omega : ¬ n < 0), String.length_append]
  unfold zeroPad
  rw [String.length_mk, List.length_replicate]
  omega

/-- Components of `format_timestamp` agree with the spec's floor formulas on
non-negative input. -/
theorem format_timestamp_eq_floor (s : ℚ) (h : 0 ≤ s) (fmt : String) :
    format_timestamp s fmt
      = (if fmt = "srt" then srtStamp else vttStamp)
          ⌊s / 3600⌋ ⌊3600 * Int.fract (s / 3600) / 60⌋ ⌊60 * Int.fract (s / 60)⌋
          ⌊Int.fract s * 1000⌋ := by
  have h36 : (0 : ℚ) < 3600 := by norm_num
  have h60 : (0 : ℚ) < 60 := by norm_num
  have e1 : pyInt (s / 3600) = ⌊s / 3600⌋ :=
    pyInt_of_nonneg _ (div_nonneg h h36.le)
  have e2 : pyInt (pyMod s 3600 / 60) = ⌊3600 * Int.fract (s / 3600) / 60⌋ := by
    rw [pyMod_eq_fract s 3600 h36.ne',
      pyInt_of_nonneg _ (div_nonneg (mul_nonneg h36.le (Int.fract_nonneg _)) h60.le)]
  have e3 : pyInt (pyMod s 60) = ⌊60 * Int.fract (s / 60)⌋ := by
    rw [pyMod_eq_fract s 60 h60.ne',
      pyInt_of_nonneg _ (mul_nonneg h60.le (Int.fract_nonneg _))]
  have e4 : pyInt ((s - (pyInt s : ℚ)) * 1000) = ⌊Int.fract s * 1000⌋ := by
    rw [pyInt_of_nonneg s h, Int.self_sub_floor,
      pyInt_of_nonneg _ (mul_nonneg (Int.fract_nonneg _) (by norm_num))]
  by_cases hf : fmt = "srt" <;>
    simp only [format_timestamp, e1, e2, e3, e4, hf, if_true, if_false, reduceIte]

/-- The millisecond component is in `[0, 999]`. -/
theorem millisecs_le_999 (s : ℚ) :
    0 ≤ ⌊Int.fract s * 1000⌋ ∧ ⌊Int.fract s * 1000⌋ ≤ 999 := by
  constructor
  · exact Int.floor_nonneg.mpr (mul_nonneg (Int.fract_nonneg _) (by norm_num))
  · have hlt : Int.fract s * 1000 < 1000 := by
      have := Int.fract_lt_one s
      nlinarith
    have : ⌊Int.fract s * 1000⌋ < 1000 := Int.floor_lt.mpr (by exact_mod_cast hlt)
    omega

/-- C5: for every non-negative number of seconds, the timestamp formatter
renders `floor(s/3600)` hours, `floor((s mod 3600)/60)` minutes,
`floor(s mod 60)` whole seconds and `floor(fract(s)*1000)` milliseconds,
zero-padded to 2/2/2/3 digits, with a comma millisecond separator for srt and
a period for vtt (where `s mod m = m * fract (s/m)`); the millisecond field
never exceeds 999 and always renders as exactly 3 digits; and concretely
`format(0)` is `00:00:00,000` / `00:00:00.000` and `format(3661.25)` is
`01:01:01,250`. -/
theorem c5_timestamp_format (s : ℚ) (h : 0 ≤ s) :
    format_timestamp s "srt"
        = srtStamp ⌊s / 3600⌋ ⌊3600 * Int.fract (s / 3600) / 60⌋ ⌊60 * Int.fract (s / 60)⌋
            ⌊Int.fract s * 1000⌋
      ∧ format_timestamp s "vtt"
        = vttStamp ⌊s / 3600⌋ ⌊3600 * Int.fract (s / 3600) / 60⌋ ⌊60 * Int.fract (s / 60)⌋
            ⌊Int.fract s * 1000⌋
      ∧ 0 ≤ ⌊Int.fract s * 1000⌋ ∧ ⌊Int.fract s * 1000⌋ ≤ 999
      ∧ (pyFormatPad 3 ⌊Int.fract s * 1000⌋).length = 3
      ∧ format_timestamp 0 "srt" = "00:00:00,000"
      ∧ format_timestamp 0 "vtt" = "00:00:00.000"
      ∧ format_timestamp (3661.25 : ℚ) "srt" = "01:01:01,250" := by
  obtain ⟨hms0, hms9⟩ := millisecs_le_999 s
  refine ⟨?_, ?_, hms0, hms9, pyFormatPad_length_three _ hms0 hms9, ?_, ?_, ?_⟩
  · simpa using format_timestamp_eq_floor s h "srt"
  · simpa using format_timestamp_eq_floor s h "vtt"
  · with_unfolding_all decide
  · with_unfolding_all decide
  · with_unfolding_all decide

/-- Witness for C5 at `s = 3661.25`. -/
theorem c5_timestamp_format_witness :
    (0 : ℚ) ≤ 3661.25
      ∧ (format_timestamp (3661.25 : ℚ) "srt"
            = srtStamp ⌊(3661.25 : ℚ) / 3600⌋ ⌊3600 * Int.fract ((3661.25 : ℚ) / 3600) / 60⌋
                ⌊60 * Int.fract ((3661.25 : ℚ) / 60)⌋ ⌊Int.fract (3661.25 : ℚ) * 1000⌋
          ∧ format_timestamp (3661.25 : ℚ) "vtt"
            = vttStamp ⌊(3661.25 : ℚ) / 3600⌋ ⌊3600 * Int.fract ((3661.25 : ℚ) / 3600) / 60⌋
                ⌊60 * Int.fract ((3661.25 : ℚ) / 60)⌋ ⌊Int.fract (3661.25 : ℚ) * 1000⌋
          ∧ 0 ≤ ⌊Int.fract (3661.25 : ℚ) * 1000⌋ ∧ ⌊Int.fract (3661.25 : ℚ) * 1000⌋ ≤ 999
          ∧ (pyFormatPad 3 ⌊Int.fract (3661.25 : ℚ) * 1000⌋).length = 3
          ∧ format_timestamp 0 "srt" = "00:00:00,000"
          ∧ format_timestamp 0 "vtt" = "00:00:00.000"
          ∧ format_timestamp (3661.25 : ℚ) "srt" = "01:01:01,250") :=
  ⟨by norm_num, c5_timestamp_format (3661.25 : ℚ) (by norm_num)⟩

/-- C6 counterexample: serialization of a negative segment time does not fail:
the formatter has no validation and no raising operation, so at `-1` seconds it
silently returns the malformed timestamp `00:59:59,000` (not an error, and not
a clamped `00:00:00,000`). -/
theorem c6_negative_time_counterexample :
    format_timestamp (-1 : ℚ) "srt" = "00:59:59,000" := by
  with_unfolding_all decide

/-- C6 amended: for every whole negative number of seconds in `(-60, 0)`
(clamped claim scope `[-60, 0)`), the formatter raises nothing and silently
renders the Python modular-arithmetic artifact `00:59:<n+60>,000` — a
malformed timestamp — rather than failing loudly or clamping. -/
theorem c6_negative_time_amended (n : ℤ) (h1 : -60 ≤ n) (h2 : n < 0) :
    format_timestamp (n : ℚ) "srt" = srtStamp 0 59 (n + 60) 0
      ∧ format_timestamp (n : ℚ) "vtt" = vttStamp 0 59 (n + 60) 0 := by
  have hq1 : (-60 : ℚ) ≤ (n : ℚ) := by exact_mod_cast h1
  have hq2 : ((n : ℚ)) < 0 := by exact_mod_cast h2
  have h3600 : (0 : ℚ) < 3600 := by norm_num
  have h60 : (0 : ℚ) < 60 := by norm_num
  have e1 : pyInt ((n : ℚ) / 3600) = 0 := by
    rw [pyInt_of_neg _ (div_neg_of_neg_of_pos hq2 h3600), Int.ceil_eq_iff]
    refine ⟨?_, ?_⟩
    · push_cast
      rw [lt_div_iff₀ h3600]
      linarith
    · push_cast
      rw [div_le_iff₀ h3600]
      linarith
  have f3600 : ⌊(n : ℚ) / 3600⌋ = -1 := by
    rw [Int.floor_eq_iff]
    refine ⟨?_, ?_⟩
    · push_cast
      rw [le_div_iff₀ h3600]
      linarith
    · push_cast
      rw [div_lt_iff₀ h3600]
      linarith
  have m3600 : pyMod (n : ℚ) 3600 = (n : ℚ) + 3600 := by
    unfold pyMod
    rw [f3600]
    push_cast
    ring
  have e2 : pyInt (pyMod (n : ℚ) 3600 / 60) = 59 := by
    rw [m3600, pyInt_of_nonneg _ (by rw [le_div_iff₀ h60]; linarith), Int.floor_eq_iff]
    refine ⟨?_, ?_⟩
    · push_cast
      rw [le_div_iff₀ h60]
      linarith
    · push_cast
      rw [div_lt_iff₀ h60]
      linarith
  have f60 : ⌊(n : ℚ) / 60⌋ = -1 := by
    rw [Int.floor_eq_iff]
    refine ⟨?_, ?_⟩
    · push_cast
      rw [le_div_iff₀ h60]
      linarith
    · push_cast
      rw [div_lt_iff₀ h60]
      linarith
  have e3 : pyInt (pyMod (n : ℚ) 60) = n + 60 := by
    have m60 : pyMod (n : ℚ) 60 = ((n + 60 : ℤ) : ℚ) := by
      unfold pyMod
      rw [f60]
      push_cast
      ring
    rw [m60, pyInt_of_nonneg _ (by push_cast; linarith), Int.floor_intCast]
  have e4 : pyInt (((n : ℚ) - (pyInt (n : ℚ) : ℚ)) * 1000) = 0 := by
    have : pyInt ((n : ℚ)) = n := by
      rw [pyInt_of_neg _ hq2, Int.ceil_intCast]
    rw [this, sub_self, zero_mul, pyInt_of_nonneg _ le_rfl, Int.floor_zero]
  constructor
  · simp only [format_timestamp, e1, e2, e3, e4]
    simp
  · simp only [format_timestamp, e1, e2, e3, e4]
    simp

/-- Witness for the C6 amended theorem at `n = -2`. -/
theorem c6_negative_time_amended_witness :
    (-60 : ℤ) ≤ -2 ∧ (-2 : ℤ) < 0
      ∧ (format_timestamp ((-2 : ℤ) : ℚ) "srt" = srtStamp 0 59 (-2 + 60) 0
          ∧ format_timestamp ((-2 : ℤ) : ℚ) "vtt" = vttStamp 0 59 (-2 + 60) 0) :=
  ⟨by decide, by decide, c6_negative_time_amended (-2) (by decide) (by decide)⟩

/-- Past loop index 0, the vtt loop emits plain header-free segment blocks. -/
theorem write_segments_aux_vtt (segments : List Segment) :
    ∀ i : ℕ, i ≠ 0 → write_segments_aux "vtt" i segments = vtt_body_spec segments := by
  induction segments with
  | nil => intro i _; rfl
  | cons seg rest ih =>
    intro i hi
    show segment_block "vtt" i seg ++ write_segments_aux "vtt" (i + 1) rest = _
    rw [ih (i + 1) (by omega)]
    simp [segment_block, vtt_body_spec, hi, String.append_assoc]

/-- The srt loop from index `i` renders sequential 1-based counters `i+1`,
`i+2`, ... regardless of the segment contents. -/
theorem write_segments_aux_srt (segments : List Segment) :
    ∀ i : ℕ, write_segments_aux "srt" i segments = srt_render_spec segments (i + 1) := by
  induction segments with
  | nil => intro i; rfl
  | cons seg rest ih =>
    intro i
    show segment_block "srt" i seg ++ write_segments_aux "srt" (i + 1) rest = _
    rw [ih (i + 1)]
    simp [segment_block, srt_render_spec, String.append_assoc]

/-- C7 amended: the vtt output begins with the literal `WEBVTT` header line and
a blank line, emitted exactly once and before any segment block, whenever the
result has at least one segment; for an empty segment list the loop never runs
and the file is empty, with no header at all. -/
theorem c7_vtt_header_amended (segments : List Segment) :
    write_segments segments "vtt"
      = if segments.isEmpty then "" else "WEBVTT\n\n" ++ vtt_body_spec segments := by
  cases segments with
  | nil => rfl
  | cons seg rest =>
    show segment_block "vtt" 0 seg ++ write_segments_aux "vtt" 1 rest = _
    rw [write_segments_aux_vtt rest 1 one_ne_zero]
    simp [segment_block, vtt_body_spec, String.append_assoc]

/-- C7 counterexample: for a result with an empty segment list the vtt file is
empty — it does not begin with the `WEBVTT` header line. -/
theorem c7_vtt_header_counterexample :
    write_segments ([] : List Segment) "vtt" = ""
      ∧ (write_segments ([] : List Segment) "vtt").startsWith "WEBVTT" = false := by
  exact ⟨rfl, by decide⟩

/-- C8: the srt output writes, for the n-th segment in the order produced by
the inference engine, the 1-based sequential index n, the timestamp line, the
trimmed segment text and a blank line; the counter starts at 1 and increments
by exactly one per segment, with no dependence on the segment times (gaps or
overlaps included). -/
theorem c8_srt_sequential_indices (segments : List Segment) :
    write_segments segments "srt" = srt_render_spec segments 1 :=
  write_segments_aux_srt segments 0

/-- The two verbatim copies of the enumerated srt/vtt loop coincide. -/
theorem gui_write_segments_aux_eq (fmt : String) (segments : List Segment) :
    ∀ i : ℕ, App.write_segments_aux fmt i segments = write_segments_aux fmt i segments := by
  induction segments with
  | nil => intro i; rfl
  | cons seg rest ih =>
    intro i
    show App.segment_block fmt i seg ++ App.write_segments_aux fmt (i + 1) rest
        = segment_block fmt i seg ++ write_segments_aux fmt (i + 1) rest
    rw [ih (i + 1)]
    rfl

/-- C10: the interactive-path serializer (`WhisperTranscriptionApp` methods)
and the command-line serializer (module-level functions) are extensionally
equal: identical timestamp strings for every input and format, and identical
output file contents for every transcription result and format choice (the
`json` case routed through the same external `json.dump`). -/
theorem c10_gui_cli_equal :
    (∀ (s : ℚ) (fmt : String), App.format_timestamp s fmt = format_timestamp s fmt)
      ∧ ∀ (jsonDump : TranscriptionResult → String) (result : TranscriptionResult) (fmt : String),
          App.write_output jsonDump result fmt = write_output jsonDump result fmt := by
  refine ⟨fun s fmt => rfl, fun jsonDump result fmt => ?_⟩
  simp only [App.write_output, write_output, App.write_segments, write_segments,
    gui_write_segments_aux_eq fmt result.segments 0]

theorem increment_pos (s : ℚ) : 0 < increment s := by
  unfold increment
  split_ifs <;> norm_num

/-- The simulated progress value is always a multiple of `0.05` and stays
within the 95 cap: the schedule reaches exactly `95` and then stops. -/
theorem simSteps_invariant (n : ℕ) : ∃ k : ℕ, k ≤ 1900 ∧ simSteps n = (k : ℚ) / 20 := by
  induction n with
  | zero => exact ⟨0, by norm_num, by simp [simSteps]⟩
  | succ n ih =>
    obtain ⟨k, hk, hs⟩ := ih
    have hstep : simSteps (n + 1)
        = if simSteps n < 95 then simSteps n + increment (simSteps n) else simSteps n := rfl
    have h20pos : (0 : ℚ) < 20 := by norm_num
    have hval : ∀ c : ℕ, (k : ℚ) / 20 + (c : ℚ) / 20 = ((k + c : ℕ) : ℚ) / 20 := by
      intro c
      push_cast
      ring
    by_cases h95 : simSteps n < 95
    · rw [hstep, if_pos h95]
      unfold increment
      by_cases h20 : simSteps n < 20
      · rw [if_pos h20]
        refine ⟨k + 10, ?_, ?_⟩
        · have hq : (k : ℚ) / 20 < 20 := hs ▸ h20
          rw [div_lt_iff₀ h20pos] at hq
          have : k < 400 := by exact_mod_cast (by linarith : (k : ℚ) < 400)
          omega
        · rw [hs, (by push_cast; norm_num : (0.5 : ℚ) = ((10 : ℕ) : ℚ) / 20), hval 10]
      · rw [if_neg h20]
        by_cases h50 : simSteps n < 50
        · rw [if_pos h50]
          refine ⟨k + 6, ?_, ?_⟩
          · have hq : (k : ℚ) / 20 < 50 := hs ▸ h50
            rw [div_lt_iff₀ h20pos] at hq
            have : k < 1000 := by exact_mod_cast (by linarith : (k : ℚ) < 1000)
            omega
          · rw [hs, (by push_cast; norm_num : (0.3 : ℚ) = ((6 : ℕ) : ℚ) / 20), hval 6]
        · rw [if_neg h50]
          by_cases h80 : simSteps n < 80
          · rw [if_pos h80]
            refine ⟨k + 2, ?_, ?_⟩
            · have hq : (k : ℚ) / 20 < 80 := hs ▸ h80
              rw [div_lt_iff₀ h20pos] at hq
              have : k < 1600 := by exact_mod_cast (by linarith : (k : ℚ) < 1600)
              omega
            · rw [hs, (by push_cast; norm_num : (0.1 : ℚ) = ((2 : ℕ) : ℚ) / 20), hval 2]
          · rw [if_neg h80]
            refine ⟨k + 1, ?_, ?_⟩
            · have hq : (k : ℚ) / 20 < 95 := hs ▸ h95
              rw [div_lt_iff₀ h20pos] at hq
              have : k < 1900 := by exact_mod_cast (by linarith : (k : ℚ) < 1900)
              omega
            · rw [hs, (by push_cast; norm_num : (0.05 : ℚ) = ((1 : ℕ) : ℚ) / 20), hval 1]
    · rw [hstep, if_neg h95]
      exact ⟨k, hk, hs⟩

/-- The estimator value never exceeds 95 and is non-decreasing. -/
theorem simSteps_le_95 (n : ℕ) : simSteps n ≤ 95 ∧ simSteps n ≤ simSteps (n + 1) := by
  obtain ⟨k, hk, hs⟩ := simSteps_invariant n
  constructor
  · rw [hs, div_le_iff₀ (by norm_num : (0 : ℚ) < 20)]
    have : (k : ℚ) ≤ 1900 := by exact_mod_cast hk
    linarith
  · have hstep : simSteps (n + 1)
        = if simSteps n < 95 then simSteps n + increment (simSteps n) else simSteps n := rfl
    rw [hstep]
    by_cases h95 : simSteps n < 95
    · rw [if_pos h95]
      have := increment_pos (simSteps n)
      linarith
    · rw [if_neg h95]

/-- C1 counterexample: a run whose pipeline returns normally after a
cancellation request ends in state `Cancelled` with its progress forced to
100: line 250 (`self.progress_var.set(100)`) runs unconditionally on every
normal pipeline return, not only on terminal success. -/
theorem c1_progress_counterexample :
    (process_transcription false true 40).state = Terminal.Cancelled
      ∧ (process_transcription false true 40).progress = 100 :=
  ⟨rfl, rfl⟩

/-- C1 amended: progress equals 100 at `Completed`; a `Failed` run keeps the
estimator's last value (which never exceeds 95 and is non-decreasing), so a
failed run's progress is never forced to 100; but a `Cancelled` run whose
pipeline returns normally also has its progress forced to 100, contrary to
"only on confirmed terminal success". -/
theorem c1_progress_amended (pipelineRaises cancelRequested : Bool) (simProgress : ℚ) :
    ((process_transcription pipelineRaises cancelRequested simProgress).state = Terminal.Completed
        → (process_transcription pipelineRaises cancelRequested simProgress).progress = 100)
      ∧ ((process_transcription pipelineRaises cancelRequested simProgress).state = Terminal.Cancelled
        → (process_transcription pipelineRaises cancelRequested simProgress).progress = 100)
      ∧ ((process_transcription pipelineRaises cancelRequested simProgress).state = Terminal.Failed
        → (process_transcription pipelineRaises cancelRequested simProgress).progress = simProgress)
      ∧ ∀ n : ℕ, simSteps n ≤ 95 ∧ simSteps n ≤ simSteps (n + 1) := by
  refine ⟨?_, ?_, ?_, simSteps_le_95⟩ <;>
    cases pipelineRaises <;> cases cancelRequested <;>
      simp [process_transcription]

/-- Witness for the C1 amended theorem: a successful, uncancelled run ends
`Completed` with progress 100. -/
theorem c1_progress_amended_witness :
    (process_transcription false false 40).state = Terminal.Completed
      ∧ (process_transcription false false 40).progress = 100 :=
  ⟨rfl, (c1_progress_amended false false 40).1 rfl⟩

/-- C4 counterexample: with no accelerated hardware available, an explicit
`"cuda"` request is passed through unchanged by both device resolvers — the
result is the unavailable device name itself, not an error report and not a
fallback to `"cpu"`. -/
theorem c4_explicit_device_counterexample :
    App.get_device "cuda" false = "cuda" ∧ main_device (some "cuda") false = "cuda" :=
  ⟨rfl, rfl⟩

/-- C4 amended: any explicit (non-`"auto"`) device preference is returned
unconditionally by `get_device`, and any `--device` argument is returned
unconditionally by `main`'s resolution, regardless of hardware availability:
no `DeviceUnavailable` error is ever produced, and no silent fallback to the
non-accelerated device occurs either — the unavailable device is silently
passed through (to fail later inside the inference engine). -/
theorem c4_explicit_device_amended (d : String) (avail : Bool) (hd : d ≠ "auto") :
    App.get_device d avail = d ∧ main_device (some d) avail = d := by
  unfold App.get_device main_device
  rw [if_neg hd]
  exact ⟨rfl, rfl⟩

/-- Witness for the C4 amended theorem at `d = "cuda"`, no hardware. -/
theorem c4_explicit_device_amended_witness :
    ("cuda" : String) ≠ "auto"
      ∧ (App.get_device "cuda" false = "cuda" ∧ main_device (some "cuda") false = "cuda") :=
  ⟨by decide, c4_explicit_device_amended "cuda" false (by decide)⟩

/-- C9 counterexample: even with a perfectly working inference oracle, the
real handler fails every request with `NameError` at line 16 (`torch` is
referenced but never imported), before the payload is saved. The scenario the
claim describes — a payload persisted to the scratch location and removed
after inference — never occurs: no scratch file is created, nothing is ever
removed, and the endpoint never returns transcribed text. -/
theorem c9_temp_cleanup_counterexample :
    transcribe "a.wav" (fun _ => Except.ok "hello")
      = (Except.error "NameError: name 'torch' is not defined", false) :=
  rfl

/-- C9 amended: every request to the endpoint raises `NameError` at the
line-16 device resolution (`torch` is used but never imported), before the
payload is saved — no scratch file is ever created or removed. The
save/inference/cleanup sequence of lines 18-30 is unreachable; within that
dead tail, `os.remove` sits on the success path only (no `try`/`finally`),
so even with the import fixed, a failing inference call would leave the
scratch file behind. -/
theorem c9_temp_cleanup_amended (filename : String)
    (load_and_transcribe : String → Except String String) :
    transcribe filename load_and_transcribe
        = (Except.error "NameError: name 'torch' is not defined", false)
      ∧ (∀ e, load_and_transcribe ("temp/" ++ filename) = Except.error e
        → transcribe_tail filename load_and_transcribe = (Except.error e, true))
      ∧ ∀ text, load_and_transcribe ("temp/" ++ filename) = Except.ok text
        → transcribe_tail filename load_and_transcribe = (Except.ok text, false) := by
  refine ⟨by simp [transcribe, app_imports], ?_, ?_⟩ <;>
    intro v hv <;> simp [transcribe_tail, hv]

/-- Witness for the C9 amended theorem: a request with a failing inference
oracle still dies with the `NameError`, and the dead tail, had it run, would
have left the scratch file in place. -/
theorem c9_temp_cleanup_amended_witness :
    transcribe "a.wav" (fun _ => Except.error "boom")
        = (Except.error "NameError: name 'torch' is not defined", false)
      ∧ ((fun _ : String => (Except.error "boom" : Except String String)) ("temp/" ++ "a.wav")
          = Except.error "boom")
      ∧ transcribe_tail "a.wav" (fun _ => Except.error "boom") = (Except.error "boom", true) :=
  ⟨(c9_temp_cleanup_amended "a.wav" (fun _ => Except.error "boom")).1, rfl,
    (c9_temp_cleanup_amended "a.wav" (fun _ => Except.error "boom")).2.1 "boom" rfl⟩

/-- Running the GUI batch loop over a prefix of files that all succeed, while
the processing flag stays up, produces their outputs in order and continues
with the remainder. -/
theorem batchLoop_append_ok (step : String → Except String String) (pat : ℕ → Bool)
    (out : String → String) (l1 l2 : List String) :
    ∀ i : ℕ, (∀ j, j < l1.length → pat (i + j) = true)
      → (∀ f ∈ l1, step f = Except.ok (out f))
      → App.batchLoop step pat i (l1 ++ l2)
        = { outputs := l1.map out ++ (App.batchLoop step pat (i + l1.length) l2).outputs
            errors := (App.batchLoop step pat (i + l1.length) l2).errors
            started := l1 ++ (App.batchLoop step pat (i + l1.length) l2).started } := by
  induction l1 with
  | nil => intro i _ _; simp
  | cons f l1 ih =>
    intro i hpat hok
    have hpi : pat i = true := by simpa using hpat 0 (by simp)
    show App.batchLoop step pat i (f :: (l1 ++ l2)) = _
    simp only [App.batchLoop, hpi, if_true, hok f (by simp)]
    rw [ih (i + 1)
      (fun j hj => by
        rw [show i + 1 + j = i + (j + 1) by omega]
        exact hpat (j + 1) (by simp only [List.length_cons]; omega))
      (fun g hg => hok g (List.mem_cons_of_mem _ hg))]
    simp only [List.length_cons, List.map_cons, List.cons_append]
    rw [show i + (l1.length + 1) = i + 1 + l1.length by omega]

/-- A fully successful run of the GUI batch loop. -/
theorem batchLoop_all_ok (step : String → Except String String) (pat : ℕ → Bool)
    (out : String → String) (l : List String) (i : ℕ)
    (hpat : ∀ j, j < l.length → pat (i + j) = true)
    (hok : ∀ f ∈ l, step f = Except.ok (out f)) :
    App.batchLoop step pat i l = { outputs := l.map out, errors := [], started := l } := by
  have h := batchLoop_append_ok step pat out l [] i hpat hok
  simpa [App.batchLoop] using h

/-- Once the processing flag is observed down, the GUI batch loop stops
before starting the next file. -/
theorem batchLoop_stop (step : String → Except String String) (n : ℕ) (l : List String) :
    App.batchLoop step (procAt (some n)) n l = { outputs := [], errors := [], started := [] } := by
  cases l with
  | nil => rfl
  | cons f rest =>
    show App.batchLoop step (procAt (some n)) n (f :: rest) = _
    unfold App.batchLoop
    rw [if_neg (by simp [procAt])]

/-- The command line batch loop computes the same outputs and error log as the
GUI loop with the processing flag always up. -/
theorem batchAux_eq_loop (step : String → Except String String) (l : List String) :
    ∀ i : ℕ, batchAux step l
      = ((App.batchLoop step (fun _ => true) i l).outputs,
          (App.batchLoop step (fun _ => true) i l).errors) := by
  induction l with
  | nil => intro i; rfl
  | cons f rest ih =>
    intro i
    show batchAux step (f :: rest) = _
    unfold batchAux App.batchLoop
    rw [if_pos rfl]
    cases hf : step f <;> simp [ih (i + 1)]

/-- Core batch computation shared by the GUI and command line batch runs:
with every file eligible, every processing check up, all of `pre` and `post`
succeeding and `bad` failing with message `e`, the loop produces the outputs
of `pre ++ post` in order, exactly one error entry keyed by the failing path,
and submits every file. -/
theorem batchLoop_one_failure (directory : String) (pre post : List String) (bad e : String)
    (out : String → String) (step : String → Except String String)
    (hbad : step (path_join directory bad) = Except.error e)
    (hok : ∀ f ∈ pre ++ post,
      step (path_join directory f) = Except.ok (out (path_join directory f)))
    (pat : ℕ → Bool) (hpat : ∀ j, pat j = true) :
    App.batchLoop step pat 0 ((pre ++ [bad] ++ post).map (path_join directory))
      = { outputs := (pre ++ post).map (fun f => out (path_join directory f)),
          errors := [(path_join directory bad, e)],
          started := (pre ++ [bad] ++ post).map (path_join directory) } := by
  have hok1 : ∀ g ∈ pre.map (path_join directory), step g = Except.ok (out g) := by
    intro g hg
    obtain ⟨f, hf, rfl⟩ := List.mem_map.mp hg
    exact hok f (List.mem_append_left _ hf)
  have hok2 : ∀ g ∈ post.map (path_join directory), step g = Except.ok (out g) := by
    intro g hg
    obtain ⟨f, hf, rfl⟩ := List.mem_map.mp hg
    exact hok f (List.mem_append_right _ hf)
  have hmap : (pre ++ [bad] ++ post).map (path_join directory)
      = pre.map (path_join directory)
        ++ (path_join directory bad :: post.map (path_join directory)) := by
    simp
  rw [hmap,
    batchLoop_append_ok step pat out (pre.map (path_join directory)) _ 0
      (fun j _ => hpat (0 + j)) hok1]
  simp only [App.batchLoop, hpat, if_true, hbad]
  rw [batchLoop_all_ok step pat out (post.map (path_join directory)) _
    (fun j _ => hpat _) hok2]
  simp [List.map_map, Function.comp_def]

/-- C2: in a batch of eligible files where exactly one file (`bad`) fails
during inference or output writing, both batch runners continue past the
failure: the GUI directory job returns the `N-1` successful output paths in
order, records exactly one error entry keyed by the failing file's path, and
ends in state `Completed` (not `Failed`); the command line batch returns the
same outputs and error log. -/
theorem c2_batch_failure_isolation (directory : String) (pre post : List String) (bad e : String)
    (out : String → String) (step : String → Except String String) (simProgress : ℚ)
    (hall : ∀ f ∈ pre ++ [bad] ++ post, isAudioFile f = true)
    (hbad : step (path_join directory bad) = Except.error e)
    (hok : ∀ f ∈ pre ++ post,
      step (path_join directory f) = Except.ok (out (path_join directory f))) :
    (run_directory_job directory (pre ++ [bad] ++ post) (Except.ok ()) step none
          simProgress).outputs
        = (pre ++ post).map (fun f => out (path_join directory f))
      ∧ (run_directory_job directory (pre ++ [bad] ++ post) (Except.ok ()) step none
          simProgress).outputs.length = (pre ++ [bad] ++ post).length - 1
      ∧ (run_directory_job directory (pre ++ [bad] ++ post) (Except.ok ()) step none
          simProgress).errors = [(path_join directory bad, e)]
      ∧ (run_directory_job directory (pre ++ [bad] ++ post) (Except.ok ()) step none
          simProgress).state = Terminal.Completed
      ∧ batch_transcribe directory (pre ++ [bad] ++ post) step
        = ((pre ++ post).map (fun f => out (path_join directory f)),
            [(path_join directory bad, e)]) := by
  have hfilter : (pre ++ [bad] ++ post).filter isAudioFile = pre ++ [bad] ++ post :=
    List.filter_eq_self.mpr hall
  have h1 := batchLoop_one_failure directory pre post bad e out step hbad hok
    (procAt none) (fun j => rfl)
  have h2 := batchLoop_one_failure directory pre post bad e out step hbad hok
    (fun _ => true) (fun j => rfl)
  have hjob : run_directory_job directory (pre ++ [bad] ++ post) (Except.ok ()) step none
        simProgress
      = { state := Terminal.Completed, progress := 100,
          outputs := (pre ++ post).map (fun f => out (path_join directory f)),
          errors := [(path_join directory bad, e)],
          started := (pre ++ [bad] ++ post).map (path_join directory) } := by
    unfold run_directory_job App.batch_transcribe
    rw [hfilter, h1]
    rfl
  have hcli : batch_transcribe directory (pre ++ [bad] ++ post) step
      = ((pre ++ post).map (fun f => out (path_join directory f)),
          [(path_join directory bad, e)]) := by
    unfold batch_transcribe
    rw [hfilter, batchAux_eq_loop step _ 0, h2]
  refine ⟨by rw [hjob], ?_, by rw [hjob], by rw [hjob], hcli⟩
  rw [hjob]
  simp

/-- Witness for C2: a three-file batch in directory `music` where only
`b.wav` fails. -/
theorem c2_batch_failure_isolation_witness :
    (∀ f ∈ (["a.mp3"] ++ ["b.wav"] ++ ["c.ogg"] : List String), isAudioFile f = true)
      ∧ (fun g => if g = "music/b.wav" then (Except.error "boom" : Except String String)
          else Except.ok (g ++ ".txt")) (path_join "music" "b.wav") = Except.error "boom"
      ∧ (∀ f ∈ (["a.mp3"] ++ ["c.ogg"] : List String),
          (fun g => if g = "music/b.wav" then (Except.error "boom" : Except String String)
            else Except.ok (g ++ ".txt")) (path_join "music" f)
            = Except.ok ((fun g => g ++ ".txt") (path_join "music" f)))
      ∧ ((run_directory_job "music" (["a.mp3"] ++ ["b.wav"] ++ ["c.ogg"]) (Except.ok ())
              (fun g => if g = "music/b.wav" then (Except.error "boom" : Except String String)
                else Except.ok (g ++ ".txt")) none 40).outputs
            = (["a.mp3"] ++ ["c.ogg"]).map (fun f => (fun g => g ++ ".txt") (path_join "music" f))
          ∧ (run_directory_job "music" (["a.mp3"] ++ ["b.wav"] ++ ["c.ogg"]) (Except.ok ())
              (fun g => if g = "music/b.wav" then (Except.error "boom" : Except String String)
                else Except.ok (g ++ ".txt")) none 40).outputs.length
            = (["a.mp3"] ++ ["b.wav"] ++ ["c.ogg"] : List String).length - 1
          ∧ (run_directory_job "music" (["a.mp3"] ++ ["b.wav"] ++ ["c.ogg"]) (Except.ok ())
              (fun g => if g = "music/b.wav" then (Except.error "boom" : Except String String)
                else Except.ok (g ++ ".txt")) none 40).errors
            = [(path_join "music" "b.wav", "boom")]
          ∧ (run_directory_job "music" (["a.mp3"] ++ ["b.wav"] ++ ["c.ogg"]) (Except.ok ())
              (fun g => if g = "music/b.wav" then (Except.error "boom" : Except String String)
                else Except.ok (g ++ ".txt")) none 40).state = Terminal.Completed
          ∧ batch_transcribe "music" (["a.mp3"] ++ ["b.wav"] ++ ["c.ogg"])
              (fun g => if g = "music/b.wav" then (Except.error "boom" : Except String String)
                else Except.ok (g ++ ".txt"))
            = ((["a.mp3"] ++ ["c.ogg"]).map (fun f => (fun g => g ++ ".txt") (path_join "music" f)),
                [(path_join "music" "b.wav", "boom")])) := by
  refine ⟨by with_unfolding_all decide, by with_unfolding_all rfl,
    by intro f hf; fin_cases hf <;> with_unfolding_all rfl, ?_⟩
  exact c2_batch_failure_isolation "music" ["a.mp3"] ["c.ogg"] "b.wav" "boom"
    (fun g => g ++ ".txt")
    (fun g => if g = "music/b.wav" then (Except.error "boom" : Except String String)
      else Except.ok (g ++ ".txt")) 40
    (by with_unfolding_all decide)
    (by with_unfolding_all rfl)
    (by intro f hf; fin_cases hf <;> with_unfolding_all rfl)

/-- C3: the GUI batch checks the cancellation flag before each file and never
mid-file. If cancellation is requested after the first `i = pre.length` files
finish and before file `i+1` starts (the check before index `i` observes the
flag down), the batch stops without submitting any further file to inference:
exactly the `i` outputs of the completed files are produced, in order, no
error entries are recorded, and the job ends in state `Cancelled`. -/
theorem c3_cancellation_before_each_file (directory : String) (pre rest : List String)
    (out : String → String) (step : String → Except String String) (simProgress : ℚ)
    (hall : ∀ f ∈ pre ++ rest, isAudioFile f = true)
    (hok : ∀ f ∈ pre, step (path_join directory f) = Except.ok (out (path_join directory f))) :
    (run_directory_job directory (pre ++ rest) (Except.ok ()) step (some pre.length)
          simProgress).outputs
        = pre.map (fun f => out (path_join directory f))
      ∧ (run_directory_job directory (pre ++ rest) (Except.ok ()) step (some pre.length)
          simProgress).outputs.length = pre.length
      ∧ (run_directory_job directory (pre ++ rest) (Except.ok ()) step (some pre.length)
          simProgress).started = pre.map (path_join directory)
      ∧ (run_directory_job directory (pre ++ rest) (Except.ok ()) step (some pre.length)
          simProgress).errors = []
      ∧ (run_directory_job directory (pre ++ rest) (Except.ok ()) step (some pre.length)
          simProgress).state = Terminal.Cancelled := by
  have hfilter : (pre ++ rest).filter isAudioFile = pre ++ rest :=
    List.filter_eq_self.mpr hall
  have hok1 : ∀ g ∈ pre.map (path_join directory), step g = Except.ok (out g) := by
    intro g hg
    obtain ⟨f, hf, rfl⟩ := List.mem_map.mp hg
    exact hok f hf
  have hpat : ∀ j, j < (pre.map (path_join directory)).length
      → procAt (some pre.length) (0 + j) = true := by
    intro j hj
    simp only [List.length_map] at hj
    simp [procAt, hj]
  have hloop : App.batchLoop step (procAt (some pre.length)) 0
        ((pre ++ rest).map (path_join directory))
      = { outputs := pre.map (fun f => out (path_join directory f)),
          errors := [],
          started := pre.map (path_join directory) } := by
    rw [List.map_append,
      batchLoop_append_ok step (procAt (some pre.length)) out
        (pre.map (path_join directory)) _ 0 hpat hok1]
    rw [show 0 + (pre.map (path_join directory)).length = pre.length by simp]
    rw [batchLoop_stop]
    simp [List.map_map, Function.comp_def]
  have hjob : run_directory_job directory (pre ++ rest) (Except.ok ()) step (some pre.length)
        simProgress
      = { state := Terminal.Cancelled, progress := 100,
          outputs := pre.map (fun f => out (path_join directory f)),
          errors := [],
          started := pre.map (path_join directory) } := by
    unfold run_directory_job App.batch_transcribe
    rw [hfilter, hloop]
    rfl
  exact ⟨by rw [hjob], by rw [hjob]; simp, by rw [hjob], by rw [hjob], by rw [hjob]⟩

/-- Witness for C3: cancellation observed before the second file of a
two-file batch yields exactly one output, no errors, no submission of the
second file, and a `Cancelled` job. -/
theorem c3_cancellation_before_each_file_witness :
    (∀ f ∈ (["a.mp3"] ++ ["b.wav"] : List String), isAudioFile f = true)
      ∧ (∀ f ∈ (["a.mp3"] : List String),
          (fun g => (Except.ok (g ++ ".txt") : Except String String)) (path_join "music" f)
            = Except.ok ((fun g => g ++ ".txt") (path_join "music" f)))
      ∧ ((run_directory_job "music" (["a.mp3"] ++ ["b.wav"]) (Except.ok ())
              (fun g => (Except.ok (g ++ ".txt") : Except String String))
              (some (["a.mp3"] : List String).length) 40).outputs
            = (["a.mp3"] : List String).map (fun f => (fun g => g ++ ".txt") (path_join "music" f))
          ∧ (run_directory_job "music" (["a.mp3"] ++ ["b.wav"]) (Except.ok ())
              (fun g => (Except.ok (g ++ ".txt") : Except String String))
              (some (["a.mp3"] : List String).length) 40).outputs.length
            = (["a.mp3"] : List String).length
          ∧ (run_directory_job "music" (["a.mp3"] ++ ["b.wav"]) (Except.ok ())
              (fun g => (Except.ok (g ++ ".txt") : Except String String))
              (some (["a.mp3"] : List String).length) 40).started
            = (["a.mp3"] : List String).map (path_join "music")
          ∧ (run_directory_job "music" (["a.mp3"] ++ ["b.wav"]) (Except.ok ())
              (fun g => (Except.ok (g ++ ".txt") : Except String String))
              (some (["a.mp3"] : List String).length) 40).errors = []
          ∧ (run_directory_job "music" (["a.mp3"] ++ ["b.wav"]) (Except.ok ())
              (fun g => (Except.ok (g ++ ".txt") : Except String String))
              (some (["a.mp3"] : List String).length) 40).state = Terminal.Cancelled) := by
  refine ⟨by with_unfolding_all decide,
    by intro f hf; fin_cases hf; with_unfolding_all rfl, ?_⟩
  exact c3_cancellation_before_each_file "music" ["a.mp3"] ["b.wav"]
    (fun g => g ++ ".txt") (fun g => (Except.ok (g ++ ".txt") : Except String String)) 40
    (by with_unfolding_all decide)
    (by intro f hf; fin_cases hf; with_unfolding_all rfl)
